import Mathlib

/-!
Shallow embedding of `src/cmd/client/main.go` from amangirdhar210/inventoryClient:
an interactive command-line client for a remote inventory HTTP service.

Modelling conventions:
* Go `float64` values are modelled as exact rationals (`ℚ`); the `%.2f` verb
  of `fmt` is modelled as decimal rounding to two fraction digits.
* JSON bodies are modelled by an inductive `Json` value; a raw response body
  (`[]byte` in Go) is a `RespBody`: the raw text together with its parse
  result (`none` when the bytes are not valid JSON).  `encoding/json`
  unmarshalling into the client target structs is modelled by explicit
  decoder functions that follow the Go semantics: keys match struct tags
  case-insensitively (`EqualFold`) with document order deciding duplicate
  keys, unknown object keys are ignored, missing fields keep their zero
  value, JSON `null` leaves the current value in place, and a type
  mismatch is a decode error.
* Each client operation is split exactly as the Go code is: a request
  builder (the `makeRequest` call with its method, path and payload) and a
  response handler run on the `HttpResponse` the server returned.  Printed
  output is modelled as the list of printed lines; an operation returns
  `Except String (List String)` (error message, or lines printed on
  success) together with the client state after the call.
-/

/-- JSON values, the abstract form of a response body. -/
inductive Json where
  | null : Json
  | bool : Bool → Json
  | num : ℚ → Json
  | str : String → Json
  | arr : List Json → Json
  | obj : List (String × Json) → Json
deriving Repr

/-- A raw HTTP response body: the raw bytes (as text) together with the
result of parsing them as JSON (`none` when they are not valid JSON). -/
structure RespBody where
  raw : String
  json : Option Json
deriving Repr

/-- An HTTP response as the client sees it: status code and body. -/
structure HttpResponse where
  statusCode : Nat
  body : RespBody
deriving Repr

/-- Go `type Product struct` — Go source lines 20–25: exactly four fields,
with JSON keys `id`, `name`, `price`, `quantity`. -/
structure Product where
  ID : String
  Name : String
  Price : ℚ
  Quantity : Int
deriving Repr, DecidableEq

instance : Inhabited Product := ⟨⟨"", "", 0, 0⟩⟩

/-- The `*http.Client` configuration made in `NewClient` (a 10-second
timeout); the client never reads it back, it is carried as state. -/
structure GoHttpClient where
  timeoutSeconds : ℚ
deriving Repr, DecidableEq

/-- Go `type Client struct` — Go source lines 27–31. -/
structure Client where
  httpClient : GoHttpClient
  baseURL : String
  token : String
deriving Repr, DecidableEq

/-- Go `const serverBaseURL = "http://localhost:8080"` — line 18. -/
def serverBaseURL : String := "http://localhost:8080"

/-- Function `NewClient` — lines 33–38. -/
def NewClient : Client :=
  { httpClient := { timeoutSeconds := 10 }
    baseURL := serverBaseURL
    token := "" }

/-- Simple case folding as `strings.EqualFold` sees the ASCII struct tags
of this client: ASCII upper case letters fold to lower case, and the
Kelvin sign and the long s are the only characters outside ASCII whose
simple fold lands on an ASCII letter. -/
def foldChar (c : Char) : Char :=
  if 'A' ≤ c ∧ c ≤ 'Z' then Char.ofNat (c.toNat + 32)
  else if c = Char.ofNat 0x212A then 'k'
  else if c = Char.ofNat 0x17F then 's'
  else c

/-- Case folding of a whole candidate object key. -/
def foldKey (s : String) : String :=
  ⟨s.toList.map foldChar⟩

/-- Go `json.Unmarshal` assignment walk for a `string` field with tag `t`:
object keys are processed in document order, a key matches the tag under
`EqualFold` (exact matches only outrank case-insensitive ones between
competing struct fields, and the tags here never compete), each match
assigns — `null` leaves the current value, a non-string is a type error —
and the walk starts from the zero value. -/
def assignStr (t : String) : List (String × Json) → String → Option String
  | [], acc => some acc
  | (k, v) :: fs, acc =>
      if foldKey k = foldKey t then
        match v with
        | .null => assignStr t fs acc
        | .str sv => assignStr t fs sv
        | _ => none
      else assignStr t fs acc

/-- Decode the `string` field tagged `t` from an object body. -/
def decodeStrTag (fs : List (String × Json)) (t : String) : Option String :=
  assignStr t fs ""

/-- Go `json.Unmarshal` assignment walk for a `float64` field with tag
`t`, with the same matching rule as `assignStr`. -/
def assignNum (t : String) : List (String × Json) → ℚ → Option ℚ
  | [], acc => some acc
  | (k, v) :: fs, acc =>
      if foldKey k = foldKey t then
        match v with
        | .null => assignNum t fs acc
        | .num q => assignNum t fs q
        | _ => none
      else assignNum t fs acc

/-- Decode the `float64` field tagged `t` from an object body. -/
def decodeNumTag (fs : List (String × Json)) (t : String) : Option ℚ :=
  assignNum t fs 0

/-- Go `json.Unmarshal` assignment walk for an `int` field with tag `t`:
as `assignNum`, except the number must be an integer fitting the signed
64-bit `int`, otherwise unmarshalling errors. -/
def assignInt (t : String) : List (String × Json) → Int → Option Int
  | [], acc => some acc
  | (k, v) :: fs, acc =>
      if foldKey k = foldKey t then
        match v with
        | .null => assignInt t fs acc
        | .num q =>
            if q.den = 1 ∧ -(2 ^ 63) ≤ q.num ∧ q.num < 2 ^ 63 then assignInt t fs q.num
            else none
        | _ => none
      else assignInt t fs acc

/-- Decode the `int` field tagged `t` from an object body. -/
def decodeIntTag (fs : List (String × Json)) (t : String) : Option Int :=
  assignInt t fs 0

/-- Go `json.Unmarshal(body, &product)` for a single `Product` value:
the JSON must be an object (or `null`, which leaves the zero value);
each of the four tagged fields decodes at its own type. -/
def decodeProduct : Json → Option Product
  | .null => some default
  | .obj fs =>
      match decodeStrTag fs "id", decodeStrTag fs "name",
            decodeNumTag fs "price", decodeIntTag fs "quantity" with
      | some i, some n, some pr, some q => some ⟨i, n, pr, q⟩
      | _, _, _, _ => none
  | _ => none

/-- Go `json.Unmarshal` of a response body into a `Product`. -/
def decodeProductBody (b : RespBody) : Option Product :=
  b.json.bind decodeProduct

/-- Go `json.Unmarshal(body, &products)` for `[]Product`: the JSON must be an
array (or `null`, giving the empty slice), every element a `Product`. -/
def decodeProducts : Json → Option (List Product)
  | .null => some []
  | .arr xs => xs.mapM decodeProduct
  | _ => none

/-- Go `json.Unmarshal` of a response body into `[]Product`. -/
def decodeProductsBody (b : RespBody) : Option (List Product) :=
  b.json.bind decodeProducts

/-- Unmarshal a body into `struct { Token string }` (login response,
lines 149–151): object or `null`; `token` field must be a string. -/
def decodeLoginToken (b : RespBody) : Option String :=
  match b.json with
  | some .null => some ""
  | some (.obj fs) => decodeStrTag fs "token"
  | _ => none

/-- Unmarshal a body into `struct { Message string }` (lines 356–358). -/
def decodeMessageField (b : RespBody) : Option String :=
  match b.json with
  | some .null => some ""
  | some (.obj fs) => decodeStrTag fs "message"
  | _ => none

/-- Unmarshal a body into `struct { Error string }` (lines 368–370). -/
def decodeErrorField (b : RespBody) : Option String :=
  match b.json with
  | some .null => some ""
  | some (.obj fs) => decodeStrTag fs "error"
  | _ => none

/-- Unmarshal a body into `struct { Value float64 }` with tag
`inventory_value` (lines 314–316). -/
def decodeInventoryValue (b : RespBody) : Option ℚ :=
  match b.json with
  | some .null => some 0
  | some (.obj fs) => decodeNumTag fs "inventory_value"
  | _ => none

/-- HTTP methods the client uses. -/
inductive Method where
  | GET | POST | PATCH | DELETE
deriving Repr, DecidableEq

/-- An outgoing HTTP request as `makeRequest` builds it. -/
structure Request where
  method : Method
  url : String
  headers : List (String × String)
  payload : Option Json
deriving Repr

/-- The request-building half of `makeRequest` — lines 165–187: the URL is
`c.baseURL + path`; `Content-Type: application/json` is set exactly when
there is a payload; `Authorization: Bearer <token>` is set exactly when the
stored token is non-empty.  (Performing the request and reading the body
are modelled by passing an `HttpResponse` to the response handlers.) -/
def makeRequest (c : Client) (method : Method) (path : String) (payload : Option Json) : Request :=
  { method := method
    url := c.baseURL ++ path
    headers :=
      (if payload.isSome then [("Content-Type", "application/json")] else []) ++
      (if c.token ≠ "" then [("Authorization", "Bearer " ++ c.token)] else [])
    payload := payload }

/-- The value of a named header on a request, if set. -/
def headerValue (r : Request) (k : String) : Option String :=
  (r.headers.find? (fun kv => kv.1 = k)).map (fun kv => kv.2)

/-- Function `printErrorResponse` — lines 367–375: the returned error text is
`server error: <e>` when the body unmarshals into `struct { Error string }`
with a non-empty `error` field `<e>`, and `unknown server error: <body>`
otherwise. -/
def printErrorResponse (b : RespBody) : String :=
  match decodeErrorField b with
  | some e => if e ≠ "" then "server error: " ++ e else "unknown server error: " ++ b.raw
  | none => "unknown server error: " ++ b.raw

/-- Function `handleProductResponse` — lines 336–350: any status other than 200 or
201 is an error built from the body; otherwise the body must decode as a
`Product` (a decode failure is returned as an error), and on success the
response banner plus the non-empty success message are printed. -/
def handleProductResponse (b : RespBody) (statusCode : Nat) (successMessage : String) :
    Except String (List String) :=
  if statusCode ≠ 200 ∧ statusCode ≠ 201 then .error (printErrorResponse b)
  else
    match decodeProductBody b with
    | none => .error ("failed to decode product response: " ++ b.raw)
    | some _ =>
        .ok ("<- Server Response:" ::
          (if successMessage ≠ "" then [successMessage] else []))

/-- Function `handleMessageResponse` — lines 352–365: any status other than 200 is
an error built from the body; on 200 it always succeeds, printing the
decoded `message` field when the body decodes with a non-empty one and
the given default message otherwise. -/
def handleMessageResponse (b : RespBody) (statusCode : Nat) (defaultMessage : String) :
    Except String (List String) :=
  if statusCode ≠ 200 then .error (printErrorResponse b)
  else
    match decodeMessageField b with
    | some m =>
        if m ≠ "" then .ok ["<- Server Response:", m]
        else .ok ["<- Server Response:", defaultMessage]
    | none => .ok ["<- Server Response:", defaultMessage]

/-- Two-digit decimal rendering of a number below 100. -/
def pad2 (n : Nat) : String :=
  if n < 10 then "0" ++ toString n else toString n

/-- Rendering of `%.2f` on the exact rational modelling a `float64`: decimal
rounding to two fraction digits, with a leading minus sign for negative
results. -/
def fmt2 (q : ℚ) : String :=
  let n : ℤ := round (q * 100)
  (if n < 0 then "-" else "") ++ toString (n.natAbs / 100) ++ "." ++ pad2 (n.natAbs % 100)

/-- One data row of the products table, cell by cell
(`%s\t%s\t$%.2f\t%d`, line 331). -/
def productRow (p : Product) : List String :=
  [p.ID, p.Name, "$" ++ fmt2 p.Price, toString p.Quantity]

/-- A table row as one printed line; the `tabwriter` column alignment is
abstracted to the tab separators the source writes. -/
def renderRow (cells : List String) : String :=
  String.intercalate "\t" cells

/-- Function `printProductsTable` — lines 326–334: a header row, a dashed rule row,
then one row per product in the order given. -/
def printProductsTable (products : List Product) : List String :=
  renderRow ["ID", "NAME", "PRICE", "QUANTITY"] ::
  renderRow ["--", "----", "-----", "--------"] ::
  products.map (fun p => renderRow (productRow p))

/-- The request `login` builds (line 139–140); `json.Marshal` of a
`map[string]string` writes keys in sorted order. -/
def loginRequest (c : Client) (email password : String) : Request :=
  makeRequest c .POST "/login" (some (.obj [("email", .str email), ("password", .str password)]))

/-- Function `login` — lines 134–158: on any status other than 200 the error built
from the body is returned; on 200 the body must decode as
`struct { Token string }` (otherwise a decode error is returned); only on
that success path is the stored token assigned. -/
def login (c : Client) (email password : String) (resp : HttpResponse) :
    Except String Unit × Client :=
  let _ := loginRequest c email password
  if resp.statusCode ≠ 200 then (.error (printErrorResponse resp.body), c)
  else
    match decodeLoginToken resp.body with
    | none => (.error ("failed to decode login response: " ++ resp.body.raw), c)
    | some t => (.ok (), { c with token := t })

/-- Function `logout` — lines 160–163: clears the token and prints a farewell. -/
def logout (c : Client) : Client × List String :=
  ({ c with token := "" }, ["You have been logged out."])

/-- The request `addProduct` builds (lines 208–209); `json.Marshal` of a
`map[string]any` writes keys in sorted order. -/
def addProductRequest (c : Client) (name : String) (price : ℚ) (quantity : Int) : Request :=
  makeRequest c .POST "/api/products"
    (some (.obj [("name", .str name), ("price", .num price), ("quantity", .num (quantity : ℚ))]))

/-- Function `addProduct` — lines 202–215. -/
def addProduct (c : Client) (name : String) (price : ℚ) (quantity : Int) (resp : HttpResponse) :
    Except String (List String) × Client :=
  let _ := addProductRequest c name price quantity
  (handleProductResponse resp.body resp.statusCode "Product added successfully.", c)

/-- The request `getProduct` builds (line 220). -/
def getProductRequest (c : Client) (id : String) : Request :=
  makeRequest c .GET ("/api/products/" ++ id) none

/-- Function `getProduct` — lines 217–225. -/
def getProduct (c : Client) (id : String) (resp : HttpResponse) :
    Except String (List String) × Client :=
  let _ := getProductRequest c id
  (handleProductResponse resp.body resp.statusCode "", c)

/-- The request `listAllProducts` builds (line 229). -/
def listAllProductsRequest (c : Client) : Request :=
  makeRequest c .GET "/api/products" none

/-- Function `listAllProducts` — lines 227–250: on 200, the body must decode as
`[]Product`; an empty list prints the no-products message, a non-empty one
prints the table. -/
def listAllProducts (c : Client) (resp : HttpResponse) :
    Except String (List String) × Client :=
  let _ := listAllProductsRequest c
  if resp.statusCode ≠ 200 then (.error (printErrorResponse resp.body), c)
  else
    match decodeProductsBody resp.body with
    | none => (.error ("failed to decode products response: " ++ resp.body.raw), c)
    | some products =>
        (.ok ("<- Server Response:" ::
          (if products.length = 0 then ["No products found in inventory."]
           else printProductsTable products)), c)

/-- The request `sellProduct` builds (lines 257–258). -/
def sellProductRequest (c : Client) (id : String) (quantity : Int) : Request :=
  makeRequest c .PATCH ("/api/products/" ++ id ++ "/sell")
    (some (.obj [("quantity", .num (quantity : ℚ))]))

/-- Function `sellProduct` — lines 252–264. -/
def sellProduct (c : Client) (id : String) (quantity : Int) (resp : HttpResponse) :
    Except String (List String) × Client :=
  let _ := sellProductRequest c id quantity
  (handleProductResponse resp.body resp.statusCode "Sale processed successfully.", c)

/-- The request `restockProduct` builds (lines 271–272). -/
def restockProductRequest (c : Client) (id : String) (quantity : Int) : Request :=
  makeRequest c .PATCH ("/api/products/" ++ id ++ "/restock")
    (some (.obj [("quantity", .num (quantity : ℚ))]))

/-- Function `restockProduct` — lines 266–277. -/
def restockProduct (c : Client) (id : String) (quantity : Int) (resp : HttpResponse) :
    Except String (List String) × Client :=
  let _ := restockProductRequest c id quantity
  (handleProductResponse resp.body resp.statusCode "Product restocked successfully.", c)

/-- The request `updateProductPrice` builds (lines 284–285). -/
def updateProductPriceRequest (c : Client) (id : String) (price : ℚ) : Request :=
  makeRequest c .PATCH ("/api/products/" ++ id ++ "/price")
    (some (.obj [("price", .num price)]))

/-- Function `updateProductPrice` — lines 279–291. -/
def updateProductPrice (c : Client) (id : String) (price : ℚ) (resp : HttpResponse) :
    Except String (List String) × Client :=
  let _ := updateProductPriceRequest c id price
  (handleMessageResponse resp.body resp.statusCode "Price updated successfully.", c)

/-- The request `deleteProduct` builds (line 296). -/
def deleteProductRequest (c : Client) (id : String) : Request :=
  makeRequest c .DELETE ("/api/products/" ++ id) none

/-- Function `deleteProduct` — lines 293–301. -/
def deleteProduct (c : Client) (id : String) (resp : HttpResponse) :
    Except String (List String) × Client :=
  let _ := deleteProductRequest c id
  (handleMessageResponse resp.body resp.statusCode "Product deleted successfully.", c)

/-- The request `getInventoryValue` builds (line 305). -/
def getInventoryValueRequest (c : Client) : Request :=
  makeRequest c .GET "/api/inventory/value" none

/-- Function `getInventoryValue` — lines 303–324: on 200 the body must decode as
`struct { Value float64 }` tagged `inventory_value`, and the value is
printed with `%.2f`. -/
def getInventoryValue (c : Client) (resp : HttpResponse) :
    Except String (List String) × Client :=
  let _ := getInventoryValueRequest c
  if resp.statusCode ≠ 200 then (.error (printErrorResponse resp.body), c)
  else
    match decodeInventoryValue resp.body with
    | none => (.error ("failed to decode inventory value response: " ++ resp.body.raw), c)
    | some v => (.ok ["<- Server Response:", "Total Inventory Value: $" ++ fmt2 v], c)

/-- The inputs an operation may read from the user before it issues its
request (`readString` / `readInt` / `readFloat` results). -/
structure OpInputs where
  id : String
  name : String
  price : ℚ
  quantity : Int
  email : String
  password : String
deriving Repr, DecidableEq

/-- The request issued by one logged-in menu choice (`runLoggedInLoop`
dispatch, lines 90–112): choices 1–8 each issue exactly one fixed request;
choice 9 (logout) and unrecognised choices issue none. -/
def loggedInChoiceRequest (c : Client) (choice : String) (inp : OpInputs) : Option Request :=
  match choice with
  | "1" => some (addProductRequest c inp.name inp.price inp.quantity)
  | "2" => some (getProductRequest c inp.id)
  | "3" => some (listAllProductsRequest c)
  | "4" => some (sellProductRequest c inp.id inp.quantity)
  | "5" => some (restockProductRequest c inp.id inp.quantity)
  | "6" => some (updateProductPriceRequest c inp.id inp.price)
  | "7" => some (deleteProductRequest c inp.id)
  | "8" => some (getInventoryValueRequest c)
  | _ => none

/-- The two menus of the main loop. -/
inductive Mode where
  | loggedOut | loggedIn
deriving Repr, DecidableEq

/-- Which menu `main` runs on one loop iteration (lines 46–52): the
logged-out menu exactly when the token is empty. -/
def menuOf (c : Client) : Mode :=
  if c.token = "" then .loggedOut else .loggedIn

/-- One user interaction with its environment: the menu choice typed, the
operation inputs typed, and the HTTP response the server would give the
issued request. -/
structure IterInput where
  choice : String
  inp : OpInputs
  resp : HttpResponse

/-- The client-state effect of one menu iteration of `main`: in the
logged-out menu (lines 55–79) only choice 1 (login) touches the state —
choice 2 exits the process and other choices reprompt; in the logged-in
menu (lines 81–119) choices 1–8 run their operation and choice 9 runs
`logout`. -/
def mainStep (c : Client) (it : IterInput) : Client :=
  match menuOf c with
  | .loggedOut =>
      match it.choice with
      | "1" => (login c it.inp.email it.inp.password it.resp).2
      | _ => c
  | .loggedIn =>
      match it.choice with
      | "1" => (addProduct c it.inp.name it.inp.price it.inp.quantity it.resp).2
      | "2" => (getProduct c it.inp.id it.resp).2
      | "3" => (listAllProducts c it.resp).2
      | "4" => (sellProduct c it.inp.id it.inp.quantity it.resp).2
      | "5" => (restockProduct c it.inp.id it.inp.quantity it.resp).2
      | "6" => (updateProductPrice c it.inp.id it.inp.price it.resp).2
      | "7" => (deleteProduct c it.inp.id it.resp).2
      | "8" => (getInventoryValue c it.resp).2
      | "9" => (logout c).1
      | _ => c

/-- Client states reachable from `NewClient` under the main loop. -/
inductive Reachable : Client → Prop where
  | init : Reachable NewClient
  | step : ∀ {c : Client} (it : IterInput), Reachable c → Reachable (mainStep c it)

/-- Whether an operation result is a success (Go: `err == nil`). -/
def isOkResult {α : Type} : Except String α → Bool
  | .ok _ => true
  | .error _ => false

/-- C1: every logged-in menu choice issues exactly its fixed request
against the base URL: choice 1 POSTs `/api/products`, 2 GETs
`/api/products/<id>`, 3 GETs `/api/products`, 4 PATCHes
`/api/products/<id>/sell`, 5 PATCHes `/api/products/<id>/restock`,
6 PATCHes `/api/products/<id>/price`, 7 DELETEs `/api/products/<id>`,
and 8 GETs `/api/inventory/value`. -/
theorem loggedIn_choice_fixed_requests (c : Client) (inp : OpInputs) :
    (loggedInChoiceRequest c "1" inp).map (fun r => (r.method, r.url)) =
      some (Method.POST, c.baseURL ++ "/api/products") ∧
    (loggedInChoiceRequest c "2" inp).map (fun r => (r.method, r.url)) =
      some (Method.GET, c.baseURL ++ ("/api/products/" ++ inp.id)) ∧
    (loggedInChoiceRequest c "3" inp).map (fun r => (r.method, r.url)) =
      some (Method.GET, c.baseURL ++ "/api/products") ∧
    (loggedInChoiceRequest c "4" inp).map (fun r => (r.method, r.url)) =
      some (Method.PATCH, c.baseURL ++ ("/api/products/" ++ inp.id ++ "/sell")) ∧
    (loggedInChoiceRequest c "5" inp).map (fun r => (r.method, r.url)) =
      some (Method.PATCH, c.baseURL ++ ("/api/products/" ++ inp.id ++ "/restock")) ∧
    (loggedInChoiceRequest c "6" inp).map (fun r => (r.method, r.url)) =
      some (Method.PATCH, c.baseURL ++ ("/api/products/" ++ inp.id ++ "/price")) ∧
    (loggedInChoiceRequest c "7" inp).map (fun r => (r.method, r.url)) =
      some (Method.DELETE, c.baseURL ++ ("/api/products/" ++ inp.id)) ∧
    (loggedInChoiceRequest c "8" inp).map (fun r => (r.method, r.url)) =
      some (Method.GET, c.baseURL ++ "/api/inventory/value") :=
  ⟨rfl, rfl, rfl, rfl, rfl, rfl, rfl, rfl⟩

/-- C3: `makeRequest` attaches the stored token as a bearer credential
exactly when it is non-empty: the Authorization header is
`Bearer <token>` for a non-empty token and absent for the empty token. -/
theorem makeRequest_bearer_authorization (c : Client) (m : Method) (path : String)
    (payload : Option Json) :
    headerValue (makeRequest c m path payload) "Authorization" =
      if c.token = "" then none else some ("Bearer " ++ c.token) := by
  unfold makeRequest headerValue
  rcases payload with _ | p <;> by_cases h : c.token = "" <;>
    simp [h, List.find?]

/-- The state component of `listAllProducts` is the unchanged client. -/
theorem listAllProducts_snd (c : Client) (resp : HttpResponse) :
    (listAllProducts c resp).2 = c := by
  unfold listAllProducts
  split
  · rfl
  · split <;> rfl

/-- The state component of `getInventoryValue` is the unchanged client. -/
theorem getInventoryValue_snd (c : Client) (resp : HttpResponse) :
    (getInventoryValue c resp).2 = c := by
  unfold getInventoryValue
  split
  · rfl
  · split <;> rfl

/-- C8: no operation other than login and logout touches the client state:
each returns the client with its HTTP client, base URL and token fields
unchanged, whatever the response (success or error) was. -/
theorem operations_frame (c : Client) (inp : OpInputs) (resp : HttpResponse) :
    (addProduct c inp.name inp.price inp.quantity resp).2 = c ∧
    (getProduct c inp.id resp).2 = c ∧
    (listAllProducts c resp).2 = c ∧
    (sellProduct c inp.id inp.quantity resp).2 = c ∧
    (restockProduct c inp.id inp.quantity resp).2 = c ∧
    (updateProductPrice c inp.id inp.price resp).2 = c ∧
    (deleteProduct c inp.id resp).2 = c ∧
    (getInventoryValue c resp).2 = c :=
  ⟨rfl, rfl, listAllProducts_snd c resp, rfl, rfl, rfl, rfl, getInventoryValue_snd c resp⟩

/-- Unfolding equation for `login`. -/
theorem login_eq (c : Client) (email password : String) (resp : HttpResponse) :
    login c email password resp =
      if resp.statusCode ≠ 200 then (.error (printErrorResponse resp.body), c)
      else
        match decodeLoginToken resp.body with
        | none => (.error ("failed to decode login response: " ++ resp.body.raw), c)
        | some t => (.ok (), { c with token := t }) := rfl

/-- In the logged-out menu only choice 1 (login) touches the state. -/
theorem mainStep_loggedOut (c : Client) (it : IterInput) (h : c.token = "") :
    mainStep c it =
      match it.choice with
      | "1" => (login c it.inp.email it.inp.password it.resp).2
      | _ => c := by
  unfold mainStep
  rw [show menuOf c = Mode.loggedOut from by simp [menuOf, h]]

/-- In the logged-in menu the dispatch of `runLoggedInLoop` runs. -/
theorem mainStep_loggedIn (c : Client) (it : IterInput) (h : ¬ c.token = "") :
    mainStep c it =
      match it.choice with
      | "1" => (addProduct c it.inp.name it.inp.price it.inp.quantity it.resp).2
      | "2" => (getProduct c it.inp.id it.resp).2
      | "3" => (listAllProducts c it.resp).2
      | "4" => (sellProduct c it.inp.id it.inp.quantity it.resp).2
      | "5" => (restockProduct c it.inp.id it.inp.quantity it.resp).2
      | "6" => (updateProductPrice c it.inp.id it.inp.price it.resp).2
      | "7" => (deleteProduct c it.inp.id it.resp).2
      | "8" => (getInventoryValue c it.resp).2
      | "9" => (logout c).1
      | _ => c := by
  unfold mainStep
  rw [show menuOf c = Mode.loggedIn from by simp [menuOf, h]]

/-- C2: the main loop is a two-state machine on the token — it runs the
logged-out menu exactly when the token is empty; one iteration either
leaves the token unchanged, clears it by the logout choice, or sets it to
the token a successful login response carried; and every
reachable state is in one of the two menus. -/
theorem main_two_state_machine :
    (∀ c : Client, menuOf c = Mode.loggedOut ↔ c.token = "") ∧
    (∀ (c : Client) (it : IterInput),
      (mainStep c it).token = c.token ∨
      (c.token ≠ "" ∧ it.choice = "9" ∧ (mainStep c it).token = "") ∨
      (c.token = "" ∧ it.choice = "1" ∧ it.resp.statusCode = 200 ∧
        decodeLoginToken it.resp.body = some (mainStep c it).token)) ∧
    (∀ c : Client, Reachable c → menuOf c = Mode.loggedOut ∨ menuOf c = Mode.loggedIn) := by
  refine ⟨?_, ?_, ?_⟩
  · intro c
    unfold menuOf
    by_cases h : c.token = "" <;> simp [h]
  · intro c it
    by_cases h : c.token = ""
    · rw [mainStep_loggedOut c it h]
      split
      · rename_i hc
        rw [login_eq]
        split
        · left; rfl
        · rename_i hst
          split
          · left; rfl
          · rename_i t heq
            right; right
            exact ⟨h, hc, by omega, by simp [heq]⟩
      · left; rfl
    · rw [mainStep_loggedIn c it h]
      split
      case _ => left; rfl
      case _ => left; rfl
      case _ => left; rw [listAllProducts_snd]
      case _ => left; rfl
      case _ => left; rfl
      case _ => left; rfl
      case _ => left; rfl
      case _ => left; rw [getInventoryValue_snd]
      case _ hc => right; left; exact ⟨h, hc, rfl⟩
      case _ => left; rfl
  · intro c _
    cases hm : menuOf c
    · exact Or.inl rfl
    · exact Or.inr rfl

/-- C2 witness. -/
theorem main_two_state_machine_witness :
    menuOf NewClient = Mode.loggedOut ∨ menuOf NewClient = Mode.loggedIn :=
  main_two_state_machine.2.2 NewClient Reachable.init

/-- C4: login succeeds exactly when the status is 200 and the body decodes
as JSON at the `struct` holding a `token` string; on success the stored
token is exactly the decoded `token` field, and on any failure the client
state is unchanged. -/
theorem login_atomic_token_update (c : Client) (email password : String) (resp : HttpResponse) :
    (isOkResult (login c email password resp).1 = true ↔
      resp.statusCode = 200 ∧ (decodeLoginToken resp.body).isSome = true) ∧
    (isOkResult (login c email password resp).1 = true →
      decodeLoginToken resp.body = some (login c email password resp).2.token) ∧
    (isOkResult (login c email password resp).1 = false →
      (login c email password resp).2 = c) := by
  rw [login_eq]
  split
  · rename_i hst
    refine ⟨?_, ?_, ?_⟩ <;> simp [isOkResult, hst]
  · rename_i hst
    split
    · rename_i heq
      refine ⟨?_, ?_, ?_⟩ <;> simp [isOkResult, heq]
    · rename_i t heq
      refine ⟨?_, ?_, ?_⟩ <;> simp [isOkResult, heq]
      omega

/-- C4 witness. -/
theorem login_atomic_token_update_witness :
    decodeLoginToken ⟨"", some (.obj [("token", .str "tk")])⟩ =
      some (login NewClient "e" "p" ⟨200, ⟨"", some (.obj [("token", .str "tk")])⟩⟩).2.token :=
  (login_atomic_token_update NewClient "e" "p"
    ⟨200, ⟨"", some (.obj [("token", .str "tk")])⟩⟩).2.1 (by decide)

/-- C5: a decoded `Product` has exactly the four-field shape keyed `id`,
`name`, `price` and `quantity` — each field of the result is the decode of
that key — and every product response an operation accepts went through
this decoding (single products for the product handlers, lists for the
listing). -/
theorem product_decode_shape :
    (∀ (fs : List (String × Json)) (p : Product),
      decodeProduct (.obj fs) = some p →
        decodeStrTag fs "id" = some p.ID ∧
        decodeStrTag fs "name" = some p.Name ∧
        decodeNumTag fs "price" = some p.Price ∧
        decodeIntTag fs "quantity" = some p.Quantity) ∧
    (∀ (b : RespBody) (status : Nat) (msg : String),
      isOkResult (handleProductResponse b status msg) = true →
        ∃ p : Product, decodeProductBody b = some p) ∧
    (∀ (c : Client) (resp : HttpResponse),
      isOkResult (listAllProducts c resp).1 = true →
        ∃ ps : List Product, decodeProductsBody resp.body = some ps) := by
  refine ⟨?_, ?_, ?_⟩
  · intro fs p h
    unfold decodeProduct at h
    rcases hid : decodeStrTag fs "id" with _ | i <;>
      rcases hn : decodeStrTag fs "name" with _ | n <;>
        rcases hpr : decodeNumTag fs "price" with _ | pr <;>
          rcases hq : decodeIntTag fs "quantity" with _ | q <;>
            simp only [hid, hn, hpr, hq, Option.some.injEq, reduceCtorEq] at h
    subst h
    exact ⟨rfl, rfl, rfl, rfl⟩
  · intro b status msg h
    unfold handleProductResponse at h
    split at h
    · simp [isOkResult] at h
    · revert h
      split
      · intro h; simp [isOkResult] at h
      · rename_i p hp
        intro _
        exact ⟨p, hp⟩
  · intro c resp h
    unfold listAllProducts at h
    split at h
    · simp [isOkResult] at h
    · revert h
      split
      · intro h; simp [isOkResult] at h
      · rename_i ps hps
        intro _
        exact ⟨ps, hps⟩

/-- C5 witness (the `ID` and `Name` keys match their tags case-insensitively). -/
theorem product_decode_shape_witness :
    decodeStrTag [("ID", Json.str "p1"), ("Name", Json.str "W"),
        ("price", Json.num 2), ("quantity", Json.num 3)] "id" = some (Product.mk "p1" "W" 2 3).ID ∧
    decodeStrTag [("ID", Json.str "p1"), ("Name", Json.str "W"),
        ("price", Json.num 2), ("quantity", Json.num 3)] "name" = some (Product.mk "p1" "W" 2 3).Name ∧
    decodeNumTag [("ID", Json.str "p1"), ("Name", Json.str "W"),
        ("price", Json.num 2), ("quantity", Json.num 3)] "price" = some (Product.mk "p1" "W" 2 3).Price ∧
    decodeIntTag [("ID", Json.str "p1"), ("Name", Json.str "W"),
        ("price", Json.num 2), ("quantity", Json.num 3)] "quantity" = some (Product.mk "p1" "W" 2 3).Quantity :=
  product_decode_shape.1
    [("ID", Json.str "p1"), ("Name", Json.str "W"), ("price", Json.num 2), ("quantity", Json.num 3)]
    (Product.mk "p1" "W" 2 3) (by decide)

/-- C6: every operation checks the status code before decoding: login,
list, update-price, delete and inventory-value error on any non-200
status; add, get, sell and restock error on any status outside 200/201;
the error is built from the body: `server error: <e>` when the body is
JSON with a non-empty `error` field `<e>`, `unknown server error: <body>`
otherwise; an error result carries no success output. -/
theorem status_checked_before_decode :
    (∀ (c : Client) (email password : String) (resp : HttpResponse), resp.statusCode ≠ 200 →
      (login c email password resp).1 = .error (printErrorResponse resp.body)) ∧
    (∀ (c : Client) (resp : HttpResponse), resp.statusCode ≠ 200 →
      (listAllProducts c resp).1 = .error (printErrorResponse resp.body)) ∧
    (∀ (c : Client) (id : String) (price : ℚ) (resp : HttpResponse), resp.statusCode ≠ 200 →
      (updateProductPrice c id price resp).1 = .error (printErrorResponse resp.body)) ∧
    (∀ (c : Client) (id : String) (resp : HttpResponse), resp.statusCode ≠ 200 →
      (deleteProduct c id resp).1 = .error (printErrorResponse resp.body)) ∧
    (∀ (c : Client) (resp : HttpResponse), resp.statusCode ≠ 200 →
      (getInventoryValue c resp).1 = .error (printErrorResponse resp.body)) ∧
    (∀ (c : Client) (name : String) (price : ℚ) (quantity : Int) (resp : HttpResponse),
      resp.statusCode ≠ 200 → resp.statusCode ≠ 201 →
      (addProduct c name price quantity resp).1 = .error (printErrorResponse resp.body)) ∧
    (∀ (c : Client) (id : String) (resp : HttpResponse),
      resp.statusCode ≠ 200 → resp.statusCode ≠ 201 →
      (getProduct c id resp).1 = .error (printErrorResponse resp.body)) ∧
    (∀ (c : Client) (id : String) (quantity : Int) (resp : HttpResponse),
      resp.statusCode ≠ 200 → resp.statusCode ≠ 201 →
      (sellProduct c id quantity resp).1 = .error (printErrorResponse resp.body)) ∧
    (∀ (c : Client) (id : String) (quantity : Int) (resp : HttpResponse),
      resp.statusCode ≠ 200 → resp.statusCode ≠ 201 →
      (restockProduct c id quantity resp).1 = .error (printErrorResponse resp.body)) ∧
    (∀ (b : RespBody) (e : String), decodeErrorField b = some e → e ≠ "" →
      printErrorResponse b = "server error: " ++ e) ∧
    (∀ b : RespBody, decodeErrorField b = none ∨ decodeErrorField b = some "" →
      printErrorResponse b = "unknown server error: " ++ b.raw) := by
  refine ⟨?_, ?_, ?_, ?_, ?_, ?_, ?_, ?_, ?_, ?_, ?_⟩
  · intro c email password resp h
    rw [login_eq, if_pos h]
  · intro c resp h
    unfold listAllProducts
    rw [if_pos h]
  · intro c id price resp h
    unfold updateProductPrice handleMessageResponse
    rw [if_pos h]
  · intro c id resp h
    unfold deleteProduct handleMessageResponse
    rw [if_pos h]
  · intro c resp h
    unfold getInventoryValue
    rw [if_pos h]
  · intro c name price quantity resp h1 h2
    unfold addProduct handleProductResponse
    rw [if_pos ⟨h1, h2⟩]
  · intro c id resp h1 h2
    unfold getProduct handleProductResponse
    rw [if_pos ⟨h1, h2⟩]
  · intro c id quantity resp h1 h2
    unfold sellProduct handleProductResponse
    rw [if_pos ⟨h1, h2⟩]
  · intro c id quantity resp h1 h2
    unfold restockProduct handleProductResponse
    rw [if_pos ⟨h1, h2⟩]
  · intro b e he hne
    unfold printErrorResponse
    rw [he]
    simp [hne]
  · intro b hb
    unfold printErrorResponse
    rcases hb with h | h <;> simp [h]

/-- C6 witness (the `Error` key matches the `error` tag case-insensitively). -/
theorem status_checked_before_decode_witness :
    printErrorResponse ⟨"raw", some (.obj [("Error", .str "boom")])⟩ = "server error: " ++ "boom" :=
  status_checked_before_decode.2.2.2.2.2.2.2.2.2.1
    ⟨"raw", some (.obj [("Error", .str "boom")])⟩ "boom" (by decide) (by decide)

/-- Function `handleMessageResponse` cannot fail once the status is 200. -/
theorem handleMessageResponse_ok_of_200 (b : RespBody) (status : Nat) (msg : String)
    (h : status = 200) : isOkResult (handleMessageResponse b status msg) = true := by
  unfold handleMessageResponse
  rw [if_neg (by omega)]
  split
  · split <;> rfl
  · rfl

/-- C9: `handleMessageResponse` returns success on every 200 response —
even a body that is not valid JSON or has an empty `message` field only
falls back to the default message of the caller — so update-price and delete
never return a decode error on 200; `handleProductResponse`, by contrast,
surfaces the decode failure of a malformed 200 body as its error. -/
theorem message_response_never_fails_on_ok :
    (∀ (b : RespBody) (msg : String), isOkResult (handleMessageResponse b 200 msg) = true) ∧
    (∀ (c : Client) (id : String) (price : ℚ) (resp : HttpResponse), resp.statusCode = 200 →
      isOkResult (updateProductPrice c id price resp).1 = true) ∧
    (∀ (c : Client) (id : String) (resp : HttpResponse), resp.statusCode = 200 →
      isOkResult (deleteProduct c id resp).1 = true) ∧
    (∀ (b : RespBody) (msg : String), decodeProductBody b = none →
      handleProductResponse b 200 msg =
        .error ("failed to decode product response: " ++ b.raw)) :=
  ⟨fun b msg => handleMessageResponse_ok_of_200 b 200 msg rfl,
   fun _ _ _ resp h => handleMessageResponse_ok_of_200 resp.body resp.statusCode _ h,
   fun _ _ resp h => handleMessageResponse_ok_of_200 resp.body resp.statusCode _ h,
   fun b msg h => by
     unfold handleProductResponse
     rw [if_neg (by omega), h]⟩

/-- C9 witness. -/
theorem message_response_never_fails_on_ok_witness :
    handleProductResponse ⟨"oops", none⟩ 200 "m" =
      .error ("failed to decode product response: " ++ "oops") :=
  message_response_never_fails_on_ok.2.2.2 ⟨"oops", none⟩ "m" (by decide)

